import Mathlib

/-!
Shallow embedding of the AWS doc-example command-line binaries
(`src/.rust_alpha/{dynamodb,kinesis,polly,s3}/src/bin/*.rs`) and proofs about
the specified pipeline: region resolution, command execution, response
rendering, audio-stream persistence and exit-code mapping.

Bytes are modelled as `Nat`, byte buffers as `List Nat`, Rust `String` as
Lean `String` (or `List Char` where character-level splitting matters),
`Option<T>` as `Option`, and a Rust `panic!`/`unwrap` failure as
`Except.error`.
-/

namespace AwsDoc

/-! ## Region resolution

Every flag-taking binary resolves its region with the same expression
(list-items.rs 47-51, describe-stream.rs 46-50, put-lexicon.rs 59-63,
synthesize-speech.rs 51-55, delete-bucket.rs 48-52, delete-object.rs 53-57):

  default_region.as_ref().map(Region::new)
    .or_else(default_provider().region())
    .unwrap_or_else(Region::new("us-west-2"))
-/

/-- Rust `Region::new`: wraps a region string (modelled as the string itself). -/
def mkRegion (s : String) : String := s

/-- The region-resolution chain of the six flag-taking binaries:
explicit `--default-region` flag first, then the environment provider,
then the literal fallback `"us-west-2"`. -/
def resolveRegion (defaultRegion envRegion : Option String) : String :=
  ((defaultRegion.map mkRegion).orElse
    (fun _ => envRegion.map mkRegion)).getD (mkRegion "us-west-2")

/-- Modelled from the spec: helloworld.rs line 13 builds its client with
`Client::from_env()`; the binary exposes no region flag, and the spec's
external-interface section says the environment supplies the region. The
resolved region is therefore the environment value alone (none when the
variable is unset), ignoring any explicit value. -/
def fromEnvRegion (defaultRegion envRegion : Option String) : Option String :=
  envRegion.map mkRegion

/-- The three sources a region value can come from. -/
inductive RegionSource where
  | explicitFlag
  | environment
  | fallback
deriving DecidableEq, BEq, Repr

/-- Sources consulted, in order, by the flag-based resolution chain
(short-circuiting: later sources are only consulted when earlier ones are
absent). -/
def flagConsultOrder (defaultRegion envRegion : Option String) : List RegionSource :=
  match defaultRegion with
  | some _ => [.explicitFlag]
  | none =>
    match envRegion with
    | some _ => [.explicitFlag, .environment]
    | none => [.explicitFlag, .environment, .fallback]

/-- Modelled from the spec: the helloworld variant consults only the
process environment, for every input. -/
def helloworldConsultOrder (defaultRegion envRegion : Option String) : List RegionSource :=
  [.environment]

/-- Source `a` is consulted before source `b` in a consultation trace:
`a` occurs, and `b` either occurs later or not at all
(`List.findIdx` returns the length when the element is absent). -/
def consultedEarlier (trace : List RegionSource) (a b : RegionSource) : Bool :=
  trace.contains a &&
    trace.findIdx (fun s => s == a) < trace.findIdx (fun s => s == b)

/-- C1: region resolution returns the explicit value whenever present,
otherwise the environment value whenever present, otherwise the literal
`"us-west-2"`; being a total function it always returns a value. -/
theorem region_resolution_priority (defaultRegion envRegion : Option String) :
    (∀ v, defaultRegion = some v → resolveRegion defaultRegion envRegion = v) ∧
    (defaultRegion = none →
      ∀ v, envRegion = some v → resolveRegion defaultRegion envRegion = v) ∧
    (defaultRegion = none → envRegion = none →
      resolveRegion defaultRegion envRegion = "us-west-2") := by
  refine ⟨?_, ?_, ?_⟩
  · intro v hv
    subst hv
    rfl
  · intro hd v hv
    subst hd
    subst hv
    rfl
  · intro hd he
    subst hd
    subst he
    rfl

/-- Witness for C1 at concrete inputs: the spec's end-to-end scenarios A and B
plus the double-absence case. -/
theorem region_resolution_priority_witness :
    resolveRegion (some "eu-west-1") (some "ap-south-1") = "eu-west-1" ∧
    resolveRegion none (some "ap-south-1") = "ap-south-1" ∧
    resolveRegion none none = "us-west-2" :=
  ⟨(region_resolution_priority (some "eu-west-1") (some "ap-south-1")).1 "eu-west-1" rfl,
   (region_resolution_priority none (some "ap-south-1")).2.1 rfl "ap-south-1" rfl,
   (region_resolution_priority none none).2.2 rfl rfl⟩

/-- C7: the two region-resolution variants in the source are inconsistent:
the helloworld variant consults the environment and never the explicit flag,
the flag-based variants consult the explicit flag first, and the two
resolution functions are not extensionally equal (they disagree when both an
explicit value and an environment value are present). -/
theorem region_order_inconsistent :
    (∀ d e, consultedEarlier (helloworldConsultOrder d e)
      RegionSource.environment RegionSource.explicitFlag = true) ∧
    (∀ d e, consultedEarlier (flagConsultOrder d e)
      RegionSource.explicitFlag RegionSource.environment = true) ∧
    (fun d e => some (resolveRegion d e)) ≠ (fun d e => fromEnvRegion d e) := by
  refine ⟨fun d e => rfl, ?_, ?_⟩
  · intro d e
    cases d <;> cases e <;> rfl
  · intro h
    have h2 := congrFun (congrFun h (some "eu-west-1")) (some "ap-south-1")
    simp [resolveRegion, fromEnvRegion, mkRegion] at h2

/-! ## Audio-stream persistence (synthesize-speech.rs 91-107)

  let mut blob = resp.audio_stream.collect().await.expect(...);
  ...
  let mut file = tokio::fs::File::create(out_file).await.expect(...);
  while blob.has_remaining() \x7b file.write_buf(&mut blob).await.expect(...); \x7d

`collect()` aggregates every chunk of the response stream, in order, into one
in-memory buffer; only then is the destination file created and the buffer
written out segment by segment.
-/

/-- Rust `ByteStream::collect()`: drains the whole stream into memory,
keeping the delivered segments in order (AggregatedBytes). -/
def collectStream (chunks : List (List Nat)) : List (List Nat) := chunks

/-- The `while blob.has_remaining()` loop: each `write_buf` call appends the
next unwritten segment of the aggregated buffer to the file and advances the
buffer cursor, until no bytes remain. -/
def writeLoop : List (List Nat) → List Nat → List Nat
  | [], file => file
  | seg :: rest, file => writeLoop rest (file ++ seg)

/-- Persistence as the source performs it: collect the full stream, create the
destination file, run the write loop. Returns the final file contents and the
total number of bytes written. -/
def persistAudio (chunks : List (List Nat)) : List Nat × Nat :=
  let blob := collectStream chunks
  let file := writeLoop blob []
  (file, file.length)

theorem writeLoop_eq_append (blob : List (List Nat)) (file : List Nat) :
    writeLoop blob file = file ++ blob.flatten := by
  induction blob generalizing file with
  | nil => simp [writeLoop]
  | cons seg rest ih => simp [writeLoop, ih]

/-- C2: persisting any sequence of byte chunks writes a file whose bytes are
exactly the concatenation of the chunks, with no chunk dropped, duplicated or
reordered, and the total bytes written equals the length of that
concatenation. -/
theorem persist_roundtrip (chunks : List (List Nat)) :
    (persistAudio chunks).1 = chunks.flatten ∧
    (persistAudio chunks).2 = chunks.flatten.length := by
  unfold persistAudio collectStream
  simp [writeLoop_eq_append]

/-! ### Memory behaviour of the persistence path

A small-step trace of the states the persistence code moves through:
first the collect phase pulls chunks from the network stream into the
in-memory buffer (the destination file does not exist yet), then the file is
created and the write phase moves segments from the buffer to the file. -/

/-- One observable state of the persistence code: the chunks still pending on
the network stream, the unconsumed in-memory aggregated buffer, whether the
destination file has been created, and the file's contents so far. -/
structure PersistState where
  pending : List (List Nat)
  blob : List (List Nat)
  fileOpen : Bool
  file : List Nat
deriving DecidableEq, Repr

/-- States passed through while `collect()` drains the stream into memory. -/
def collectStates : List (List Nat) → List (List Nat) → List PersistState
  | [], blob => [⟨[], blob, false, []⟩]
  | c :: rest, blob => ⟨c :: rest, blob, false, []⟩ :: collectStates rest (blob ++ [c])

/-- States passed through by the write loop once the file has been created. -/
def writeStates : List (List Nat) → List Nat → List PersistState
  | [], file => [⟨[], [], true, file⟩]
  | seg :: rest, file => ⟨[], seg :: rest, true, file⟩ :: writeStates rest (file ++ seg)

/-- The full execution trace of the persistence code on a given stream. -/
def persistTrace (chunks : List (List Nat)) : List PersistState :=
  collectStates chunks [] ++ writeStates (collectStream chunks) []

/-- Whether at some point of the trace the destination file exists while the
in-memory buffer still holds the entire (non-empty) response body. -/
def holdsFullBodyWithFile (chunks : List (List Nat)) : Bool :=
  (persistTrace chunks).any fun s =>
    s.fileOpen && s.blob.flatten == chunks.flatten && decide (0 < chunks.flatten.length)

/-- C3 counterexample: on the two-chunk stream `[[0], [1]]` there is a state
where the destination file is open and the in-memory buffer holds the full
two-byte body, refuting the claim that the program never holds the full
response body in memory simultaneously with the destination buffer. -/
theorem persist_full_body_counterexample :
    holdsFullBodyWithFile [[0], [1]] = true := by decide

/-- C3 amended: for every stream with non-empty content, the program first
collects the entire response body into memory; at the moment the destination
file is created the buffer holds the full body, so the full body and the
destination buffer coexist. -/
theorem persist_collects_before_writing (chunks : List (List Nat))
    (h : chunks.flatten ≠ []) :
    holdsFullBodyWithFile chunks = true := by
  unfold holdsFullBodyWithFile persistTrace collectStream
  rw [List.any_append]
  cases chunks with
  | nil => simp at h
  | cons c rest =>
    apply Bool.or_eq_true_iff.mpr
    right
    simp only [writeStates, List.any_cons]
    apply Bool.or_eq_true_iff.mpr
    left
    have hpos : 0 < ((c :: rest).flatten).length := List.length_pos.mpr h
    simp only [List.flatten_cons, List.length_append, List.length_flatten] at hpos
    simp
    omega

/-- Witness for the amended C3 theorem at the concrete stream `[[2], [3]]`. -/
theorem persist_collects_before_writing_witness :
    holdsFullBodyWithFile [[2], [3]] = true :=
  persist_collects_before_writing [[2], [3]] (by decide)

/-! ## Destination-path derivation (synthesize-speech.rs 97-98)

  let parts: Vec<&str> = filename.split('.').collect();
  let out_file = format!(..., String::from(parts[0]), ".mp3");

Filenames are modelled at character level (`List Char`) because the source
splits on a single character.
-/

/-- Rust `str::split('.')`: splits a character sequence at every dot.
Always returns at least one (possibly empty) segment, exactly as Rust's
`split`, so the source's `parts[0]` never panics. -/
def splitOnDot : List Char → List (List Char)
  | [] => [[]]
  | c :: rest =>
    if c = '.' then [] :: splitOnDot rest
    else
      let parts := splitOnDot rest
      (c :: parts.headD []) :: parts.tail

/-- The destination filename the source builds: the first dot-separated
segment of the input filename followed by ".mp3". -/
def outFileChars (filename : List Char) : List Char :=
  let parts := splitOnDot filename
  parts.headD [] ++ String.toList ".mp3"

/-- Modelled from the spec, for comparison with the source definition
`outFileChars`: the naming rule's destination is the input path with its
final extension component removed and replaced by ".mp3"; an input path with
no extension yields a Validation error instead of a guess. -/
def specDestination (filename : List Char) : Except String (List Char) :=
  let parts := splitOnDot filename
  if 2 ≤ parts.length then
    Except.ok (List.intercalate (String.toList ".") parts.dropLast ++ String.toList ".mp3")
  else
    Except.error "Validation: input path has no extension"

/-- C4 counterexample: on the input "a.b.txt" the code produces "a.mp3"
while the final-extension rule requires "a.b.mp3", and on the
extension-less input "speech" the code produces "speech.mp3" instead of
raising a Validation error. -/
theorem destination_counterexample :
    outFileChars (String.toList "a.b.txt") = String.toList "a.mp3" ∧
    specDestination (String.toList "a.b.txt") = Except.ok (String.toList "a.b.mp3") ∧
    Except.ok (outFileChars (String.toList "a.b.txt")) ≠
      specDestination (String.toList "a.b.txt") ∧
    outFileChars (String.toList "speech") = String.toList "speech.mp3" ∧
    specDestination (String.toList "speech") =
      Except.error "Validation: input path has no extension" := by
  refine ⟨by decide, rfl, ?_, by decide, rfl⟩
  intro h
  have h2 : outFileChars (String.toList "a.b.txt") = String.toList "a.b.mp3" :=
    Except.ok.inj (h.trans rfl)
  exact absurd h2 (by decide)

theorem splitOnDot_headD (l : List Char) :
    (splitOnDot l).headD [] = l.takeWhile (fun c => !(c = '.')) := by
  induction l with
  | nil => rfl
  | cons c rest ih =>
    by_cases hc : c = '.'
    · subst hc
      simp [splitOnDot, List.takeWhile_cons]
    · rw [List.headD_eq_head?_getD] at ih
      simp [splitOnDot, hc, List.takeWhile_cons, ih]

/-- C4 amended: for every input filename, the destination equals the portion
of the input before its first dot with ".mp3" appended; in particular an
input with no dot gets ".mp3" appended to the whole name, and no Validation
error is ever raised (the derivation is a total function). For inputs with a
single extension, such as "speech.txt", this coincides with replacing the
final extension. -/
theorem destination_first_segment (filename : List Char) :
    outFileChars filename =
      filename.takeWhile (fun c => !(c = '.')) ++ String.toList ".mp3" :=
  congrArg (fun l => l ++ String.toList ".mp3") (splitOnDot_headD filename)

/-! ## Rendering of optional response attributes

describe-stream.rs 68-80 renders a successful DescribeStream response with
unchecked `.unwrap()` on every optional field, and helloworld.rs 41-44 does
the same on `table_description`/`table_arn`. An `unwrap` on an absent value
is a Rust panic, modelled as `Except.error`.
-/

/-- Rust `Option::unwrap()`: the value when present, a panic when absent. -/
def rustUnwrap {α : Type} : Option α → Except String α
  | some a => Except.ok a
  | none => Except.error "panicked: called unwrap on a None value"

/-- The optional fields of a Kinesis stream description used by the source
(shards are opaque; only their count is printed). -/
structure StreamDescription where
  stream_name : Option String
  stream_status : Option String
  shards : Option (List Unit)
  retention_period_hours : Option Int
  encryption_type : Option String

/-- A successful DescribeStream response; its description is optional. -/
structure DescribeStreamOutput where
  stream_description : Option StreamDescription

/-- Rendering of a DescribeStream success exactly as describe-stream.rs
68-80 does: unchecked unwraps on the description and every optional field,
in println order. -/
def renderDescribeStream (resp : DescribeStreamOutput) : Except String (List String) := do
  let desc ← rustUnwrap resp.stream_description
  let name ← rustUnwrap desc.stream_name
  let status ← rustUnwrap desc.stream_status
  let shards ← rustUnwrap desc.shards
  let retention ← rustUnwrap desc.retention_period_hours
  let encryption ← rustUnwrap desc.encryption_type
  pure ["Stream description:",
        "  Name:              " ++ name ++ ":",
        "  Status:            " ++ status,
        "  Open shards:       " ++ toString shards.length,
        "  Retention (hours): " ++ toString retention,
        "  Encryption:        " ++ encryption]

/-- The optional fields of a CreateTable response used by helloworld.rs. -/
structure TableDescription where
  table_arn : Option String

/-- A successful CreateTable response; its description is optional. -/
structure CreateTableOutput where
  table_description : Option TableDescription

/-- Rendering of the new-table line exactly as helloworld.rs 41-44 does:
`new_table.table_description.unwrap().table_arn.unwrap()`. -/
def renderNewTable (resp : CreateTableOutput) : Except String String := do
  let desc ← rustUnwrap resp.table_description
  let arn ← rustUnwrap desc.table_arn
  pure ("New table: " ++ arn)

/-- C5: on a successful response whose optional attributes are absent the
source rendering fails (panics) instead of substituting an "unknown"
placeholder: it fails on an absent stream description, on an absent shard
list within a present description, and on an absent table description, so
rendering is not total. -/
theorem render_optional_fields_panics :
    renderDescribeStream ⟨none⟩ =
      Except.error "panicked: called unwrap on a None value" ∧
    renderDescribeStream
        ⟨some ⟨some "s", some "ACTIVE", none, some 24, some "NONE"⟩⟩ =
      Except.error "panicked: called unwrap on a None value" ∧
    renderNewTable ⟨none⟩ =
      Except.error "panicked: called unwrap on a None value" :=
  ⟨rfl, rfl, rfl⟩

/-! ## Outcome handling and exit codes

Each binary matches on the result of its single `send()`: the `Ok` arm
prints the success output and `main` returns (process exit code 0), the
`Err` arm prints a fixed operation-specific line, then the error's message,
then calls `process::exit(1)` (list-items.rs 70-85, delete-bucket.rs 68-78).
-/

/-- The uniform outcome of the single command: a success payload or a
service error carrying its displayed message. -/
inductive CommandResult (α : Type) where
  | success (payload : α)
  | failure (errMsg : String)

/-- The per-item lines printed by the scan loop of list-items.rs 74-78
(`resp.items.unwrap_or_default()`, one indented debug line per item; items
are modelled by their rendered debug text). -/
def renderItems (items : Option (List String)) : List String :=
  (items.getD []).map (fun item => "   " ++ item)

/-- Tail of list-items.rs `main` after the send: exit code and console lines
for each outcome. -/
def listItemsFinish (table : String) (r : CommandResult (Option (List String))) :
    Nat × List String :=
  match r with
  | .success items =>
      (0, ("Items in table " ++ table ++ ":") :: renderItems items)
  | .failure e => (1, ["Got an error listing items:", e])

/-- Tail of delete-bucket.rs `main` after the send. -/
def deleteBucketFinish (bucket : String) (r : CommandResult Unit) :
    Nat × List String :=
  match r with
  | .success _ => (0, ["Deleted bucket " ++ bucket])
  | .failure e => (1, ["Got an error deleting bucket:", e])

/-- C6: a Failure outcome exits with code 1 after a two-line diagnostic
whose first line is a fixed non-empty operation-specific message and whose
second line is the error's message; a Success outcome exits with code 0; no
outcome produces any other exit code. Stated for the two cited binaries. -/
theorem exit_code_mapping (table bucket : String)
    (rl : CommandResult (Option (List String))) (rb : CommandResult Unit) :
    (∀ e, rl = .failure e →
      listItemsFinish table rl = (1, ["Got an error listing items:", e]) ∧
      "Got an error listing items:" ≠ "") ∧
    (∀ p, rl = .success p → (listItemsFinish table rl).1 = 0) ∧
    ((listItemsFinish table rl).1 = 0 ∨ (listItemsFinish table rl).1 = 1) ∧
    (∀ e, rb = .failure e →
      deleteBucketFinish bucket rb = (1, ["Got an error deleting bucket:", e]) ∧
      "Got an error deleting bucket:" ≠ "") ∧
    (∀ p, rb = .success p → (deleteBucketFinish bucket rb).1 = 0) ∧
    ((deleteBucketFinish bucket rb).1 = 0 ∨ (deleteBucketFinish bucket rb).1 = 1) := by
  refine ⟨?_, ?_, ?_, ?_, ?_, ?_⟩
  · intro e he
    subst he
    exact ⟨rfl, by decide⟩
  · intro p hp
    subst hp
    rfl
  · cases rl with
    | success p => left; rfl
    | failure e => right; rfl
  · intro e he
    subst he
    exact ⟨rfl, by decide⟩
  · intro p hp
    subst hp
    rfl
  · cases rb with
    | success p => left; rfl
    | failure e => right; rfl

/-- Witness for C6 at concrete outcomes: a failing scan and a successful
bucket deletion. -/
theorem exit_code_mapping_witness :
    listItemsFinish "movies" (.failure "boom") =
      (1, ["Got an error listing items:", "boom"]) ∧
    (deleteBucketFinish "b" (.success ())).1 = 0 :=
  ⟨((exit_code_mapping "movies" "b" (.failure "boom") (.success ())).1 "boom" rfl).1,
   (exit_code_mapping "movies" "b" (.failure "boom") (.success ())).2.2.2.2.1 () rfl⟩

/-- C8: rendering the items of a scan response whose item collection is
absent or empty produces zero item lines (and no error, the renderer being a
total function). -/
theorem scan_empty_renders_no_lines :
    renderItems none = [] ∧ renderItems (some []) = [] :=
  ⟨rfl, rfl⟩

/-! ## The shared per-binary pipeline and the verbose flag

Every flag-taking binary follows the same shape: resolve the region, print
diagnostic lines when `verbose` is set (and only then), build the one
request from its parameters, send it, and finish by matching on the
outcome. The shape is captured by `CliBinary`/`runBinary`, with one
instance per binary carrying that binary's actual strings and request.
-/

/-- The output formats of the Polly SynthesizeSpeech API (the source only
ever uses `Mp3`). -/
inductive OutputFormat where
  | json
  | mp3
  | oggVorbis
  | pcm
deriving DecidableEq, Repr

/-- Polly voice identifiers (the source only ever uses `Joanna`). -/
inductive VoiceId where
  | joanna
  | amy
  | brian
  | matthew
deriving DecidableEq, Repr

/-- The SynthesizeSpeech request as built in synthesize-speech.rs 74-79. -/
structure SynthesizeSpeechRequest where
  output_format : OutputFormat
  text : String
  voice_id : VoiceId
deriving DecidableEq, Repr

/-- The request built by synthesize-speech.rs 74-79: output format MP3,
the text being the full contents of the input file, voice Joanna. -/
def mkSynthesizeSpeechRequest (fileContents : String) : SynthesizeSpeechRequest :=
  { output_format := .mp3, text := fileContents, voice_id := .joanna }

/-- The Scan request of list-items.rs 70. -/
structure ScanRequest where
  table_name : String

/-- The DescribeStream request of describe-stream.rs 67. -/
structure DescribeStreamRequest where
  stream_name : String

/-- The PutLexicon request of put-lexicon.rs 89-94. -/
structure PutLexiconRequest where
  name : String
  content : String

/-- The DeleteBucket request of delete-bucket.rs 68. -/
structure DeleteBucketRequest where
  bucket : String

/-- The DeleteObject request of delete-object.rs 73-77. -/
structure DeleteObjectRequest where
  bucket : String
  key : String

/-- The lexicon XML document built by put-lexicon.rs 82-87 around the
`from` and `to` strings. -/
def lexiconContent (fromText toText : String) : String :=
  "<?xml version=\"1.0\" encoding=\"UTF-8\"?>\n    <lexicon version=\"1.0\" xmlns=\"http://www.w3.org/2005/01/pronunciation-lexicon\" xmlns:xsi=\"http://www.w3.org/2001/XMLSchema-instance\"\n    xsi:schemaLocation=\"http://www.w3.org/2005/01/pronunciation-lexicon http://www.w3.org/TR/2007/CR-pronunciation-lexicon-20071212/pls.xsd\"\n    alphabet=\"ipa\" xml:lang=\"en-US\">\n    <lexeme><grapheme>" ++
    fromText ++ "</grapheme><alias>" ++ toText ++ "</alias></lexeme>\n    </lexicon>"

/-- Stand-in for the external crate constant `PKG_VERSION` printed in the
verbose diagnostics; its value is external to the repository and irrelevant
to every property proved here. -/
def pkgVersion (crate : String) : String := crate ++ " PKG_VERSION"

/-- The common shape of the six flag-taking binaries: the verbose diagnostic
lines (from the parameters and the resolved region), the request built from
the parameters, and the post-outcome finish (its termination — an exit code,
or a panic message — and the lines it prints). -/
structure CliBinary (Params Req Payload : Type) where
  diagLines : Params → String → List String
  buildRequest : Params → String → Req
  finish : Params → CommandResult Payload → Except String Nat × List String

/-- What one invocation observably does: the request it issues, how it
terminates, and its console lines. -/
structure RunResult (Req : Type) where
  request : Req
  termination : Except String Nat
  console : List String

/-- One invocation of a binary, as all six mains are structured: resolve the
region, print the diagnostic lines only when `verbose` is set, build and
send the one request, then finish on the outcome. -/
def runBinary {Params Req Payload : Type} (b : CliBinary Params Req Payload)
    (p : Params) (defaultRegion envRegion : Option String) (verbose : Bool)
    (outcome : CommandResult Payload) : RunResult Req :=
  let region := resolveRegion defaultRegion envRegion
  let pre := if verbose then b.diagLines p region else []
  let fin := b.finish p outcome
  ⟨b.buildRequest p region, fin.1, pre ++ fin.2⟩

/-- list-items.rs as a `CliBinary`: parameter is the table name. -/
def listItemsBinary : CliBinary String ScanRequest (Option (List String)) where
  diagLines := fun table region =>
    ["DynamoDB client version: " ++ pkgVersion "dynamodb" ++ "\n",
     "AWS Region:              " ++ region,
     "Table:                   " ++ table]
  buildRequest := fun table _ => ⟨table⟩
  finish := fun table r =>
    (Except.ok (listItemsFinish table r).1, (listItemsFinish table r).2)

/-- describe-stream.rs as a `CliBinary`: parameter is the stream name; its
success rendering can panic (modelled by `renderDescribeStream`). -/
def describeStreamBinary : CliBinary String DescribeStreamRequest DescribeStreamOutput where
  diagLines := fun name region =>
    ["Kinesis client version: " ++ pkgVersion "kinesis" ++ "\n",
     "AWS Region:             " ++ region,
     "Stream name:            " ++ name]
  buildRequest := fun name _ => ⟨name⟩
  finish := fun _ r =>
    match r with
    | .success resp =>
      match renderDescribeStream resp with
      | .ok lines => (Except.ok 0, lines)
      | .error m => (Except.error m, [])
    | .failure e => (Except.ok 1, ["Got an error describing the stream:", e])

/-- put-lexicon.rs as a `CliBinary`: parameters are the lexicon name and the
from/to strings. -/
def putLexiconBinary : CliBinary (String × String × String) PutLexiconRequest Unit where
  diagLines := fun p region =>
    ["polly client version: " ++ pkgVersion "polly" ++ "\n",
     "AWS Region:           " ++ region,
     "Lexicon name:         " ++ p.1,
     "Text to replace:      " ++ p.2.1,
     "Replacement text:     " ++ p.2.2]
  buildRequest := fun p _ => ⟨p.1, lexiconContent p.2.1 p.2.2⟩
  finish := fun _ r =>
    match r with
    | .success _ => (Except.ok 0, ["Added lexicon."])
    | .failure e => (Except.ok 1, ["Got an error adding lexicon:", e])

/-- synthesize-speech.rs as a `CliBinary`: parameters are the input filename
and the full contents read from it; the success payload is the audio
stream's chunk list, persisted rather than printed. -/
def synthesizeSpeechBinary : CliBinary (String × String) SynthesizeSpeechRequest (List (List Nat)) where
  diagLines := fun p region =>
    ["polly client version: " ++ pkgVersion "polly" ++ ".\n",
     "AWS Region:           " ++ region,
     "Filename:             " ++ p.1]
  buildRequest := fun p _ => mkSynthesizeSpeechRequest p.2
  finish := fun _ r =>
    match r with
    | .success _ => (Except.ok 0, [])
    | .failure e => (Except.ok 1, ["Got an error synthesizing speech:", e])

/-- delete-bucket.rs as a `CliBinary`: parameter is the bucket name. -/
def deleteBucketBinary : CliBinary String DeleteBucketRequest Unit where
  diagLines := fun _ region =>
    ["S3 client version: " ++ pkgVersion "s3",
     "AWS Region:        " ++ region]
  buildRequest := fun bucket _ => ⟨bucket⟩
  finish := fun bucket r =>
    (Except.ok (deleteBucketFinish bucket r).1, (deleteBucketFinish bucket r).2)

/-- delete-object.rs as a `CliBinary`: parameters are the bucket and the
object key. -/
def deleteObjectBinary : CliBinary (String × String) DeleteObjectRequest Unit where
  diagLines := fun _ region =>
    ["S3 client version: " ++ pkgVersion "s3",
     "AWS Region:        " ++ region]
  buildRequest := fun p _ => ⟨p.1, p.2⟩
  finish := fun p r =>
    match r with
    | .success _ => (Except.ok 0, ["Deleted object " ++ p.2 ++ " from bucket " ++ p.1])
    | .failure e => (Except.ok 1, ["Got an error deleting object from bucket:", e])

/-- C9: for every binary following the shared shape (in particular each of
the six instances defined above), and for every choice of parameters,
region inputs and command outcome, the request issued and the termination
(exit code or panic) are identical whether verbose is true or false, and the
verbose run's console is exactly the diagnostic lines followed by the
non-verbose run's console. -/
theorem verbose_noninterference {Params Req Payload : Type}
    (b : CliBinary Params Req Payload) (p : Params)
    (defaultRegion envRegion : Option String) (outcome : CommandResult Payload) :
    (runBinary b p defaultRegion envRegion true outcome).request =
      (runBinary b p defaultRegion envRegion false outcome).request ∧
    (runBinary b p defaultRegion envRegion true outcome).termination =
      (runBinary b p defaultRegion envRegion false outcome).termination ∧
    (runBinary b p defaultRegion envRegion true outcome).console =
      b.diagLines p (resolveRegion defaultRegion envRegion) ++
        (runBinary b p defaultRegion envRegion false outcome).console := by
  refine ⟨rfl, rfl, ?_⟩
  simp [runBinary]

/-- C10: every invocation of the speech-synthesis binary issues a request
with output format MP3 and voice Joanna, and with text equal to the full
contents of the input file; these hold for every filename, file contents,
region flag, environment value, verbose setting and outcome, so voice and
output format are not selectable by any command-line input. -/
theorem synthesize_request_fixed (filename contents : String)
    (defaultRegion envRegion : Option String) (verbose : Bool)
    (outcome : CommandResult (List (List Nat))) :
    (runBinary synthesizeSpeechBinary (filename, contents)
        defaultRegion envRegion verbose outcome).request =
      { output_format := OutputFormat.mp3, text := contents,
        voice_id := VoiceId.joanna } :=
  rfl

end AwsDoc
